import Mathlib

/-
Verification of the arena subsystem of mimalloc (src/arena.c) against its
natural-language specification.  The arena code in `src/src/arena.c` is
embedded shallowly below; the bitmap primitives (`bitmap.h`/`bitmap.c`),
the option store, and the OS abstraction layer are not part of the given
sources, so they are modelled from the specification (sections 4.1, 4.2,
6 and the constants table) and marked as such in their doc comments.
Machine integers (`size_t`) are modelled as `Nat`, taking the wrap-around
modulo `2^64` into account exactly where the C computation can wrap.
-/

set_option maxRecDepth 100000

namespace Mimalloc

/-- `size_t` is 64 bits wide; arithmetic wraps modulo this value. -/
def USIZE : Nat := 2 ^ 64

/-- Modelled from the spec: `BLOCK_SIZE` is the arena block granularity,
4 MiB in the source (the constant lives in a header that is not part of
the given sources). -/
def MI_ARENA_BLOCK_SIZE : Nat := 4 * 1024 * 1024

/-- Modelled from the spec: `BLOCK_ALIGN` equals `BLOCK_SIZE`. -/
def MI_ARENA_BLOCK_ALIGN : Nat := MI_ARENA_BLOCK_SIZE

/-- Modelled from the spec: a bitmap field is one 64-bit machine word. -/
def MI_BFIELD_BITS : Nat := 64

/-- Modelled from the spec: a bitmap chunk is 8 machine words (512 bits). -/
def MI_BITMAP_CHUNK_FIELDS : Nat := 8

/-- Bits per bitmap chunk (8 x 64 = 512). -/
def MI_BITMAP_CHUNK_BITS : Nat := MI_BITMAP_CHUNK_FIELDS * MI_BFIELD_BITS

/-- Modelled from the spec: the bitmap holds `MI_BFIELD_BITS` chunks (the
debug printer in arena.c iterates `chunks[MI_BFIELD_BITS]`), so the hard
cap on blocks per arena is `64 * 512 = 32768` bits. -/
def MI_BITMAP_MAX_BITS : Nat := MI_BFIELD_BITS * MI_BITMAP_CHUNK_BITS

/-- Modelled from the spec: the smallest size served from an arena is one
block (the arena.c header comment: large blocks `>= 4MiB`). -/
def MI_ARENA_MIN_OBJ_SIZE : Nat := MI_ARENA_BLOCK_SIZE

/-- Modelled from the spec: a claim cannot span bitmap chunks, so the
largest single arena allocation is one chunk of blocks. -/
def MI_ARENA_MAX_OBJ_SIZE : Nat := MI_BITMAP_CHUNK_BITS * MI_ARENA_BLOCK_SIZE

/-- Hard cap on registered arenas (arena.c line 54). -/
def MI_MAX_ARENAS : Nat := 1024

/-- Modelled from the spec: number of size bins for the abandoned-page
bitmaps; the exact header value is immaterial to every claim. -/
def MI_ARENA_BIN_COUNT : Nat := 75

/-- `_mi_divide_up` from the internal header: ceiling division. -/
def _mi_divide_up (n d : Nat) : Nat := (n + d - 1) / d

/-- `_mi_align_up` from the internal header: round `sz` up to a multiple
of the power-of-two `al`, with `size_t` wrap-around in `sz + al - 1`. -/
def _mi_align_up (sz al : Nat) : Nat := ((sz + al - 1) % USIZE) / al * al

/-- `_mi_clamp` from the internal header. -/
def _mi_clamp (x lo hi : Nat) : Nat := if x < lo then lo else if x > hi then hi else x

/-- `mi_block_count_of_size` (arena.c appendix line 899). -/
def mi_block_count_of_size (size : Nat) : Nat := _mi_divide_up size MI_ARENA_BLOCK_SIZE

/-- `mi_size_of_blocks` (arena.c appendix line 903). -/
def mi_size_of_blocks (bcount : Nat) : Nat := bcount * MI_ARENA_BLOCK_SIZE

/- ----------------------------------------------------------------------
   Bitmap model.  `bitmap.h`/`bitmap.c` are not part of the given sources;
   the operations are modelled from spec sections 4.1 and 4.2.  A bitmap
   is the set of indices of its set bits.
   ---------------------------------------------------------------------- -/

/-- The index range `[idx, idx+n)` targeted by a range operation. -/
def rangeSet (idx n : Nat) : Finset Nat := Finset.Ico idx (idx + n)

/-- Modelled from the spec: probe whether all bits of `[idx, idx+n)` are
set (`is_range_set` / `mi_bitmap_is_xsetN MI_BIT_SET`). -/
def mi_bitmap_allSetN (bm : Finset Nat) (idx n : Nat) : Bool :=
  decide (rangeSet idx n ⊆ bm)

/-- Modelled from the spec: probe whether all bits of `[idx, idx+n)` are
clear (`mi_bitmap_is_xsetN MI_BIT_CLEAR`). -/
def mi_bitmap_allClearN (bm : Finset Nat) (idx n : Nat) : Bool :=
  decide (Disjoint (rangeSet idx n) bm)

/-- Modelled from the spec: set the bits `[idx, idx+n)`
(`xset_range(SET, ...)`, the mutation of `mi_bitmap_xsetN MI_BIT_SET`).
Its C return value is `mi_bitmap_allClearN` of the pre-state (all bits
transitioned) and its out-parameter is `mi_bitmap_allSetN` of the
pre-state (all bits were already set). -/
def mi_bitmap_setN (bm : Finset Nat) (idx n : Nat) : Finset Nat :=
  bm ∪ rangeSet idx n

/-- Modelled from the spec: clear the bits `[idx, idx+n)`
(`xset_range(CLEAR, ...)`, the mutation of `mi_bitmap_xsetN MI_BIT_CLEAR`). -/
def mi_bitmap_clearN (bm : Finset Nat) (idx n : Nat) : Finset Nat :=
  bm \ rangeSet idx n

/-- Number of bitmap chunks covering `block_count` blocks (spec 4.2: the
chunk array is sized to the block count, rounded up). -/
def mi_bitmap_chunk_count (block_count : Nat) : Nat :=
  _mi_divide_up block_count MI_BITMAP_CHUNK_BITS

/-- Modelled from the spec (4.1): within chunk `chunk_idx`, find the
lowest start of a run of `n` set bits that does not straddle the chunk
boundary. -/
def mi_bitmap_chunk_find (bm : Finset Nat) (chunk_idx n : Nat) : Option Nat :=
  ((List.range (MI_BITMAP_CHUNK_BITS + 1 - n)).find? fun j =>
      mi_bitmap_allSetN bm (chunk_idx * MI_BITMAP_CHUNK_BITS + j) n).map
    fun j => chunk_idx * MI_BITMAP_CHUNK_BITS + j

/-- Modelled from the spec (4.2): `try_find_and_clear_n` iterates the
chunks starting at `tseq mod chunk_count`, finds a run of `n` set bits
inside a single chunk, and clears it; runs never span chunks.  Returns
the claimed start index together with the updated bitmap. -/
def mi_bitmap_try_find_and_clearN (bm : Finset Nat) (tseq n block_count : Nat) :
    Option (Nat × Finset Nat) :=
  let chunk_count := mi_bitmap_chunk_count block_count
  if chunk_count = 0 then none
  else
    ((List.range chunk_count).findSome? fun k =>
        mi_bitmap_chunk_find bm ((tseq % chunk_count + k) % chunk_count) n).map
      fun i => (i, mi_bitmap_clearN bm i n)

/- ----------------------------------------------------------------------
   Memid, arena descriptor, options and environment.
   ---------------------------------------------------------------------- -/

/-- Modelled from the spec (3, Memid): the provenance of a memory range.
The OS kinds of the header enum are collapsed into one `os` variant;
`mi_memkind_is_os` holds exactly for it. -/
inductive MiMemProv : Type
  | noProv : MiMemProv
  | external : MiMemProv
  | staticProv : MiMemProv
  | os : MiMemProv
  | arena (id : Int) (block_index : Nat) (is_exclusive : Bool) : MiMemProv
deriving DecidableEq

/-- `mi_memid_t`: provenance plus the three orthogonal flags. -/
structure MiMemid : Type where
  prov : MiMemProv
  initially_committed : Bool := false
  initially_zero : Bool := false
  is_pinned : Bool := false
deriving DecidableEq

/-- `mi_memid_create_arena` (arena.c line 145). -/
def mi_memid_create_arena (id : Int) (is_exclusive : Bool) (block_index : Nat) : MiMemid :=
  { prov := MiMemProv.arena id block_index is_exclusive }

/-- `mi_arena_t` (arena.c lines 35-52): the arena descriptor.  `base` is
the descriptor address (the descriptor lives at the start of its own
memory area, so `mi_arena_start(arena) = base`); pointers are modelled
as `Nat` addresses.  Bitmaps are sets of set-bit indices. -/
structure MiArena : Type where
  base : Nat
  memid : MiMemid
  id : Int
  block_count : Nat
  numa_node : Int
  exclusive : Bool
  is_large : Bool
  purge_expire : Int
  blocks_free : Finset Nat
  blocks_committed : Finset Nat
  blocks_purge : Finset Nat
  blocks_dirty : Finset Nat
  blocks_abandoned : List (Finset Nat)
deriving DecidableEq

/-- Modelled from the spec (6, configuration inputs): the option store. -/
structure MiOptions : Type where
  purge_delay : Int
  arena_purge_mult : Int
  arena_reserve : Nat
  arena_eager_commit : Int
  disallow_arena_alloc : Bool
  disallow_os_alloc : Bool
  purge_decommits : Bool
deriving DecidableEq

/-- Modelled from the spec (6, OS interface): ambient system facts and the
oracle for the outcomes of the OS calls a single operation makes. -/
structure MiEnv : Type where
  preloading : Bool
  os_page_size : Nat
  sizeof_arena : Nat
  has_virtual_reserve : Bool
  has_overcommit : Bool
  numa_node_count : Nat
  os_commit_ok : Bool
  os_commit_zero : Bool
  os_purge_needs_recommit : Bool
  os_alloc_ok : Bool
  os_alloc_base : Nat
  os_alloc_zero : Bool
  os_alloc_pinned : Bool
deriving DecidableEq

/-- The registry: slot array `mi_arenas` plus the count `mi_arena_count`
(arena.c lines 57-58).  Slots beyond the list hold no arena. -/
structure MiGlobal : Type where
  arenas : List (Option MiArena)
  arena_count : Nat
deriving DecidableEq

/-- Load of `mi_arenas[i]`. -/
def miSlot (g : MiGlobal) (i : Nat) : Option MiArena := g.arenas.getD i none

/-- Store to `mi_arenas[i]` (padding the model list as needed). -/
def miSetSlot (g : MiGlobal) (i : Nat) (a : MiArena) : MiGlobal :=
  { g with arenas := (g.arenas ++ List.replicate (i + 1 - g.arenas.length) none).set i (some a) }

/-- `mi_arena_id_index` (arena.c line 66). -/
def mi_arena_id_index (id : Int) : Nat :=
  if id ≤ 0 then MI_MAX_ARENAS else (id - 1).toNat

/-- `mi_arena_id_is_suitable` (arena.c line 79). -/
def mi_arena_id_is_suitable (arena_id : Int) (arena_is_exclusive : Bool)
    (req_arena_id : Int) : Bool :=
  (!arena_is_exclusive && req_arena_id == 0) || (arena_id == req_arena_id)

/-- `mi_arena_info_blocks` (arena.c line 114): blocks reserved at the
start of each arena for the descriptor plus a guard page. -/
def mi_arena_info_blocks (env : MiEnv) : Nat :=
  mi_block_count_of_size (_mi_align_up env.sizeof_arena env.os_page_size + env.os_page_size)

/-- The diagnostics arena.c can emit on the paths the claims mention. -/
inductive MiDiag : Type
  | invalidArena : MiDiag
  | invalidArenaBlock : MiDiag
  | alreadyFreed : MiDiag
  | purgeNotImplemented : MiDiag
deriving DecidableEq

/- ----------------------------------------------------------------------
   Purge (arena.c lines 780-843).
   ---------------------------------------------------------------------- -/

/-- `mi_arena_purge_delay` (arena.c line 780). -/
def mi_arena_purge_delay (o : MiOptions) : Int :=
  o.purge_delay * o.arena_purge_mult

/-- `mi_arena_purge` (arena.c lines 787-813).  Note the source passes
`blocks, block_idx` (in that order) to both `MI_BIT_CLEAR` calls at
lines 807 and 811, which the embedding reproduces. -/
def mi_arena_purge (env : MiEnv) (arena : MiArena) (block_idx blocks : Nat) : MiArena :=
  let needs_recommit := env.os_purge_needs_recommit
  let arena1 := { arena with
    blocks_purge := mi_bitmap_clearN arena.blocks_purge blocks block_idx }
  if needs_recommit then
    { arena1 with
      blocks_committed := mi_bitmap_clearN arena1.blocks_committed blocks block_idx }
  else arena1

/-- `mi_arena_schedule_purge` (arena.c lines 818-830).  The delayed path
of the primary source is a stub that only emits a diagnostic. -/
def mi_arena_schedule_purge (env : MiEnv) (o : MiOptions) (arena : MiArena)
    (block_idx blocks : Nat) : MiArena × List MiDiag :=
  let delay := mi_arena_purge_delay o
  if delay < 0 then (arena, [])
  else if env.preloading || delay == 0 then
    (mi_arena_purge env arena block_idx blocks, [])
  else
    (arena, [MiDiag.purgeNotImplemented])

/-- `mi_arenas_try_purge` (arena.c lines 833-843): also a stub. -/
def mi_arenas_try_purge (env : MiEnv) (o : MiOptions) (g : MiGlobal) : List MiDiag :=
  if env.preloading || mi_arena_purge_delay o ≤ 0 then []
  else if g.arena_count = 0 then []
  else [MiDiag.purgeNotImplemented]

/- ----------------------------------------------------------------------
   Free (arena.c lines 382-458).
   ---------------------------------------------------------------------- -/

/-- The release step of `_mi_arena_free` (arena.c lines 444-449): set
the free bits of the range; if not all of them were clear, this is a
double free and the `EAGAIN` diagnostic is emitted. -/
def mi_arena_free_release (st : MiArena × List MiDiag) (block_idx blocks : Nat) :
    MiArena × List MiDiag × Bool :=
  if mi_bitmap_allClearN st.1.blocks_free block_idx blocks then
    ({ st.1 with blocks_free := mi_bitmap_setN st.1.blocks_free block_idx blocks },
     st.2, true)
  else
    ({ st.1 with blocks_free := mi_bitmap_setN st.1.blocks_free block_idx blocks },
     st.2 ++ [MiDiag.alreadyFreed], false)

/-- The decommit-and-schedule step of the arena branch (arena.c lines
422-442): skipped for pinned or initially committed arenas; otherwise a
not-fully-committed range first loses its committed bits (with the
transposed `blocks, block_idx` arguments of line 429), then the range
is scheduled for purge. -/
def mi_arena_free_decommit (env : MiEnv) (o : MiOptions) (arena : MiArena)
    (block_idx blocks : Nat) (all_committed : Bool) : MiArena × List MiDiag :=
  if arena.memid.is_pinned || arena.memid.initially_committed then (arena, [])
  else
    mi_arena_schedule_purge env o
      (if all_committed then arena
       else { arena with
         blocks_committed := mi_bitmap_clearN arena.blocks_committed blocks block_idx })
      block_idx blocks

/-- The body of the `MI_MEM_ARENA` branch of `_mi_arena_free`
(arena.c lines 408-449), acting on one arena.  The returned `Bool` is
false when the source `return`s early (invalid block or double free).
The source checks `block_idx <= mi_arena_info_blocks()` at line 417,
which this embedding reproduces verbatim. -/
def mi_arena_free_blocks (env : MiEnv) (o : MiOptions) (arena : MiArena)
    (block_idx blocks : Nat) (all_committed : Bool) :
    MiArena × List MiDiag × Bool :=
  if block_idx ≤ mi_arena_info_blocks env || block_idx > arena.block_count then
    (arena, [MiDiag.invalidArenaBlock], false)
  else
    mi_arena_free_release
      (mi_arena_free_decommit env o arena block_idx blocks all_committed)
      block_idx blocks

/-- `_mi_arena_free` (arena.c lines 382-458).  `p` is the address being
freed (0 models `NULL`).  Returns the updated registry and the emitted
diagnostics. -/
def _mi_arena_free (env : MiEnv) (o : MiOptions) (g : MiGlobal)
    (p size committed_size : Nat) (memid : MiMemid) : MiGlobal × List MiDiag :=
  if p = 0 then (g, [])
  else if size = 0 then (g, [])
  else
    let all_committed := committed_size == size
    match memid.prov with
    | MiMemProv.os => (g, mi_arenas_try_purge env o g)
    | MiMemProv.arena aid bidx _excl =>
      let arena_idx := mi_arena_id_index aid
      match miSlot g arena_idx with
      | none => (g, [MiDiag.invalidArena])
      | some arena =>
        let blocks := mi_block_count_of_size size
        let res := mi_arena_free_blocks env o arena bidx blocks all_committed
        let g1 := miSetSlot g arena_idx res.1
        if res.2.2 then (g1, res.2.1 ++ mi_arenas_try_purge env o g1)
        else (g1, res.2.1)
    | _ => (g, mi_arenas_try_purge env o g)

/- ----------------------------------------------------------------------
   Allocation (arena.c lines 167-373).
   ---------------------------------------------------------------------- -/

/-- `mi_arena_try_alloc_at` (arena.c lines 167-209): claim
`needed_bcount` blocks from `arena.blocks_free`, then do the dirty and
commit bookkeeping.  Returns the block start address, the produced
memid, and the updated arena. -/
def mi_arena_try_alloc_at (env : MiEnv) (arena : MiArena) (needed_bcount : Nat)
    (commit : Bool) (tseq : Nat) : Option (Nat × MiMemid × MiArena) :=
  match mi_bitmap_try_find_and_clearN arena.blocks_free tseq needed_bcount
      arena.block_count with
  | none => none
  | some (block_index, free1) =>
    let arena1 := { arena with blocks_free := free1 }
    let p := arena1.base + mi_size_of_blocks block_index
    let memid0 := { mi_memid_create_arena arena1.id arena1.exclusive block_index with
      is_pinned := arena1.memid.is_pinned }
    let dirtied :=
      if arena1.memid.initially_zero then
        ({ memid0 with initially_zero :=
             mi_bitmap_allClearN arena1.blocks_dirty block_index needed_bcount },
         { arena1 with blocks_dirty :=
             mi_bitmap_setN arena1.blocks_dirty block_index needed_bcount })
      else (memid0, arena1)
    let memid1 := dirtied.1
    let arena2 := dirtied.2
    if commit then
      let all_already_committed :=
        mi_bitmap_allSetN arena2.blocks_committed block_index needed_bcount
      let arena3 := { arena2 with
        blocks_committed :=
          mi_bitmap_setN arena2.blocks_committed block_index needed_bcount }
      let memid2 :=
        if all_already_committed then { memid1 with initially_committed := true }
        else if env.os_commit_ok then
          if env.os_commit_zero then
            { memid1 with initially_committed := true, initially_zero := true }
          else { memid1 with initially_committed := true }
        else { memid1 with initially_committed := false }
      some (p, memid2, arena3)
    else
      some (p, { memid1 with
        initially_committed :=
          mi_bitmap_allSetN arena2.blocks_committed block_index needed_bcount }, arena2)

/-- `mi_arena_try_alloc_at_id` (arena.c lines 212-239). -/
def mi_arena_try_alloc_at_id (env : MiEnv) (g : MiGlobal) (arena_id : Int)
    (match_numa_node : Bool) (numa_node : Int) (size alignment : Nat)
    (commit allow_large : Bool) (req_arena_id : Int) (tseq : Nat) :
    Option (Nat × MiMemid × MiGlobal) :=
  if alignment > MI_ARENA_BLOCK_ALIGN then none
  else
    let bcount := mi_block_count_of_size size
    let arena_index := mi_arena_id_index arena_id
    match miSlot g arena_index with
    | none => none
    | some arena =>
      if !allow_large && arena.is_large then none
      else if !(mi_arena_id_is_suitable arena.id arena.exclusive req_arena_id) then none
      else
        let numa_ok :=
          if req_arena_id == 0 then
            let numa_suitable :=
              numa_node < 0 || arena.numa_node < 0 || arena.numa_node == numa_node
            if match_numa_node then numa_suitable else !numa_suitable
          else true
        if !numa_ok then none
        else
          match mi_arena_try_alloc_at env arena bcount commit tseq with
          | none => none
          | some (p, memid, arena1) => some (p, memid, miSetSlot g arena_index arena1)

/-- `mi_arena_try_alloc` (arena.c lines 243-276): a specific arena if
requested, else a numa-preferred pass then a numa-fallback pass. -/
def mi_arena_try_alloc (env : MiEnv) (g : MiGlobal) (numa_node : Int)
    (size alignment : Nat) (commit allow_large : Bool) (req_arena_id : Int)
    (tseq : Nat) : Option (Nat × MiMemid × MiGlobal) :=
  if alignment > MI_ARENA_BLOCK_ALIGN then none
  else
    let max_arena := g.arena_count
    if max_arena = 0 then none
    else if req_arena_id != 0 then
      if mi_arena_id_index req_arena_id < max_arena then
        mi_arena_try_alloc_at_id env g req_arena_id true numa_node size alignment
          commit allow_large req_arena_id tseq
      else none
    else
      match (List.range max_arena).findSome? (fun i =>
          mi_arena_try_alloc_at_id env g ((i : Int) + 1) true numa_node size alignment
            commit allow_large req_arena_id tseq) with
      | some r => some r
      | none =>
        if numa_node ≥ 0 then
          (List.range max_arena).findSome? (fun i =>
            mi_arena_try_alloc_at_id env g ((i : Int) + 1) false numa_node size alignment
              commit allow_large req_arena_id tseq)
        else none

/- ----------------------------------------------------------------------
   Arena registration (arena.c lines 510-630).
   ---------------------------------------------------------------------- -/

/-- The arena descriptor as initialized by `mi_manage_os_memory_ex2`
(arena.c lines 552-590): bitmaps start empty, blocks beyond the
descriptor prefix become free, the prefix (and, for initially committed
memory, everything) becomes committed, and the prefix becomes dirty. -/
def mi_arena_init (env : MiEnv) (start bcount : Nat) (is_large : Bool)
    (numa_node : Int) (exclusive : Bool) (memid : MiMemid) : MiArena :=
  let info_blocks := mi_arena_info_blocks env
  { base := start
    memid := memid
    id := 0
    block_count := bcount
    numa_node := numa_node
    exclusive := exclusive
    is_large := is_large
    purge_expire := 0
    blocks_free := mi_bitmap_setN ∅ info_blocks (bcount - info_blocks)
    blocks_committed :=
      if memid.initially_committed then mi_bitmap_setN ∅ 0 bcount
      else mi_bitmap_setN ∅ 0 info_blocks
    blocks_purge := ∅
    blocks_dirty := mi_bitmap_setN ∅ 0 info_blocks
    blocks_abandoned := List.replicate MI_ARENA_BIN_COUNT ∅ }

/-- `mi_arena_add` (arena.c lines 510-525): append-only registration,
assigning `id = slot + 1`. -/
def mi_arena_add (g : MiGlobal) (arena : MiArena) : Option (Int × MiGlobal) :=
  let i := g.arena_count
  if i ≥ MI_MAX_ARENAS then none
  else
    let id : Int := (i : Int) + 1
    some (id, miSetSlot { g with arena_count := i + 1 } i { arena with id := id })

/-- `mi_manage_os_memory_ex2` (arena.c lines 527-593).  Returns the new
arena id and registry on success, `none` on rejection. -/
def mi_manage_os_memory_ex2 (env : MiEnv) (g : MiGlobal) (start size : Nat)
    (is_large : Bool) (numa_node : Int) (exclusive : Bool) (memid : MiMemid) :
    Option (Int × MiGlobal) :=
  if start = 0 then none
  else if ¬ (start % MI_ARENA_BLOCK_SIZE = 0) then none
  else
    let info_blocks := mi_arena_info_blocks env
    let bcount := size / MI_ARENA_BLOCK_SIZE
    if bcount < info_blocks + 1 then none
    else if bcount > MI_BITMAP_MAX_BITS then none
    else mi_arena_add g (mi_arena_init env start bcount is_large numa_node exclusive memid)

/-- `mi_reserve_os_memory_ex` (arena.c lines 605-619), with the OS
allocation outcome taken from the environment oracle.  Returns the new
arena id and registry on success (`0` in C), `none` on `ENOMEM`. -/
def mi_reserve_os_memory_ex (env : MiEnv) (g : MiGlobal) (size0 : Nat)
    (commit allow_large exclusive : Bool) : Option (Int × MiGlobal) :=
  let size := _mi_align_up size0 MI_ARENA_BLOCK_SIZE
  if ¬ env.os_alloc_ok then none
  else
    let memid : MiMemid :=
      { prov := MiMemProv.os
        initially_committed := commit
        initially_zero := env.os_alloc_zero
        is_pinned := env.os_alloc_pinned }
    let is_large := memid.is_pinned
    mi_manage_os_memory_ex2 env g env.os_alloc_base size is_large (-1) exclusive memid

/- ----------------------------------------------------------------------
   Reserve engine (arena.c lines 279-323).
   ---------------------------------------------------------------------- -/

/-- The guards and size computation of `mi_arena_reserve` (arena.c lines
281-315): everything before the eager-commit policy and the OS call.
Computation is in `size_t`; `mi_mul_overflow` makes the multiplier apply
only when the product fits. -/
def mi_arena_reserve_size (env : MiEnv) (o : MiOptions) (arena_count : Nat)
    (req_size : Nat) (req_arena_id : Int) : Option Nat :=
  if env.preloading then none
  else if req_arena_id != 0 then none
  else if arena_count > MI_MAX_ARENAS - 4 then none
  else if o.arena_reserve = 0 then none
  else
    let r1 := if env.has_virtual_reserve then o.arena_reserve else o.arena_reserve / 4
    let r2 := _mi_align_up r1 MI_ARENA_BLOCK_SIZE
    let r3 :=
      if 8 ≤ arena_count ∧ arena_count ≤ 128 then
        let multiplier := 2 ^ _mi_clamp (arena_count / 8) 0 16
        if multiplier * r2 < USIZE then multiplier * r2 else r2
      else r2
    let min_reserve := mi_size_of_blocks (mi_arena_info_blocks env + 1)
    let max_reserve := MI_BITMAP_MAX_BITS * MI_ARENA_BLOCK_SIZE
    let r4 :=
      if r3 < min_reserve then min_reserve
      else if r3 > max_reserve then max_reserve
      else r3
    if r4 < req_size then none else some r4

/-- `mi_arena_reserve` (arena.c lines 279-323): compute the next arena
size and reserve OS memory for it. -/
def mi_arena_reserve (env : MiEnv) (o : MiOptions) (g : MiGlobal)
    (req_size : Nat) (allow_large : Bool) (req_arena_id : Int) :
    Option (Int × MiGlobal) :=
  match mi_arena_reserve_size env o g.arena_count req_size req_arena_id with
  | none => none
  | some arena_reserve =>
    let arena_commit :=
      if o.arena_eager_commit = 2 then env.has_overcommit
      else o.arena_eager_commit = 1
    mi_reserve_os_memory_ex env g arena_reserve arena_commit allow_large false

/- ----------------------------------------------------------------------
   `_mi_arena_alloc_aligned` (arena.c lines 326-368).
   ---------------------------------------------------------------------- -/

/-- The outcome of `_mi_arena_alloc_aligned`: an arena placement, a
delegation to the OS layer (`_mi_os_alloc_aligned`, or the at-offset
variant), or `NULL` with `errno = ENOMEM`. -/
inductive MiAllocResult : Type
  | arenaAlloc (p : Nat) (memid : MiMemid) : MiAllocResult
  | osAlloc (at_offset : Bool) : MiAllocResult
  | enomem : MiAllocResult
deriving DecidableEq

/-- The fall-through tail of `_mi_arena_alloc_aligned` (arena.c lines
355-367): `ENOMEM` when OS allocation is disallowed or a specific arena
was requested, else delegate to the OS layer. -/
def mi_alloc_os_fallback (o : MiOptions) (req_arena_id : Int) (align_offset : Nat)
    (g : MiGlobal) : MiAllocResult × MiGlobal :=
  if o.disallow_os_alloc || req_arena_id != 0 then (MiAllocResult.enomem, g)
  else (MiAllocResult.osAlloc (align_offset > 0), g)

/-- `_mi_arena_alloc_aligned` (arena.c lines 326-368).  `tseq` and
`numa_node` stand for `_mi_thread_seq_id()` and `_mi_os_numa_node(tld)`. -/
def _mi_arena_alloc_aligned (env : MiEnv) (o : MiOptions) (g : MiGlobal)
    (size alignment align_offset : Nat) (commit allow_large : Bool)
    (req_arena_id : Int) (tseq : Nat) (numa_node : Int) :
    MiAllocResult × MiGlobal :=
  if (!o.disallow_arena_alloc || req_arena_id != 0) &&
     (decide (MI_ARENA_MIN_OBJ_SIZE ≤ size) && decide (size ≤ MI_ARENA_MAX_OBJ_SIZE) &&
      decide (alignment ≤ MI_ARENA_BLOCK_ALIGN) && (align_offset == 0)) then
    match mi_arena_try_alloc env g numa_node size alignment commit allow_large
        req_arena_id tseq with
    | some (p, memid, g1) => (MiAllocResult.arenaAlloc p memid, g1)
    | none =>
      if req_arena_id == 0 then
        match mi_arena_reserve env o g size allow_large req_arena_id with
        | some (arena_id, g1) =>
          match mi_arena_try_alloc_at_id env g1 arena_id true numa_node size
              alignment commit allow_large req_arena_id tseq with
          | some (p, memid, g2) => (MiAllocResult.arenaAlloc p memid, g2)
          | none => mi_alloc_os_fallback o req_arena_id align_offset g1
        | none => mi_alloc_os_fallback o req_arena_id align_offset g
      else mi_alloc_os_fallback o req_arena_id align_offset g
  else mi_alloc_os_fallback o req_arena_id align_offset g

/- ----------------------------------------------------------------------
   Huge-page interleave (arena.c lines 727-752).
   ---------------------------------------------------------------------- -/

/-- The numa-node count used by the interleave (arena.c lines 731-732):
the given count, else the detected one, forced to at least 1. -/
def mi_numa_count (env : MiEnv) (numa_nodes : Nat) : Nat :=
  let c := if numa_nodes > 0 then numa_nodes else env.numa_node_count
  if c = 0 then 1 else c

/-- The reservation loop of `mi_reserve_huge_os_pages_interleave`
(arena.c lines 738-749), collecting the `(numa_node, node_pages,
timeout_per)` triples passed to `mi_reserve_huge_os_pages_at`, under the
assumption that each call succeeds (a failure only truncates the list
further).  The first argument is the remaining iteration count
`numa_count - numa_node` (so the loop guard `numa_node < numa_count`
is exactly its positivity); the last is the loop variable `pages`. -/
def mi_huge_interleave_loop (pages_per pages_mod timeout_per : Nat) :
    Nat → Nat → Nat → List (Nat × Nat × Nat)
  | 0, _, _ => []
  | fuel + 1, numa_node, remaining =>
    if 0 < remaining then
      (numa_node, pages_per + (if numa_node < pages_mod then 1 else 0), timeout_per) ::
        mi_huge_interleave_loop pages_per pages_mod timeout_per fuel (numa_node + 1)
          (remaining - (pages_per + (if numa_node < pages_mod then 1 else 0)))
    else []

/-- `mi_reserve_huge_os_pages_interleave` (arena.c lines 727-752),
returning the C result together with the issued per-node requests. -/
def mi_reserve_huge_os_pages_interleave (env : MiEnv) (pages numa_nodes timeout_msecs : Nat) :
    Int × List (Nat × Nat × Nat) :=
  if pages = 0 then (0, [])
  else
    let numa_count := mi_numa_count env numa_nodes
    let pages_per := pages / numa_count
    let pages_mod := pages % numa_count
    let timeout_per := if timeout_msecs = 0 then 0 else timeout_msecs / numa_count + 50
    (0, mi_huge_interleave_loop pages_per pages_mod timeout_per numa_count 0 pages)

/-- Total pages requested from node `n` by a request list. -/
def pagesRequestedFrom (reqs : List (Nat × Nat × Nat)) (n : Nat) : Nat :=
  (reqs.filter (fun r => r.1 = n)).foldr (fun r acc => r.2.1 + acc) 0

/-- Total pages requested over all nodes. -/
def pagesRequestedTotal (reqs : List (Nat × Nat × Nat)) : Nat :=
  reqs.foldr (fun r acc => r.2.1 + acc) 0

/- ----------------------------------------------------------------------
   Per-arena operation sequences (for the prefix invariant).
   ---------------------------------------------------------------------- -/

/-- One arena-bitmap operation: a claim by `mi_arena_try_alloc_at`, the
arena branch of `_mi_arena_free`, or a direct `mi_arena_purge` (the purge
applied by the collect pass). -/
inductive ArenaOp : Type
  | alloc (bcount : Nat) (commit : Bool) (tseq : Nat) : ArenaOp
  | free (block_idx blocks : Nat) (all_committed : Bool) : ArenaOp
  | purge (block_idx blocks : Nat) : ArenaOp

/-- Apply one operation to an arena (failed claims leave it unchanged). -/
def arenaStep (env : MiEnv) (o : MiOptions) (a : MiArena) : ArenaOp → MiArena
  | ArenaOp.alloc bcount commit tseq =>
    match mi_arena_try_alloc_at env a bcount commit tseq with
    | none => a
    | some r => r.2.2
  | ArenaOp.free block_idx blocks all_committed =>
    (mi_arena_free_blocks env o a block_idx blocks all_committed).1
  | ArenaOp.purge block_idx blocks => mi_arena_purge env a block_idx blocks

/-- Apply a sequence of operations. -/
def arenaRun (env : MiEnv) (o : MiOptions) (a : MiArena) (ops : List ArenaOp) : MiArena :=
  ops.foldl (arenaStep env o) a

/- ----------------------------------------------------------------------
   Concrete fixtures used by the evaluation theorems.  With a 4 KiB OS
   page and a 256-byte descriptor, `mi_arena_info_blocks = 1`.
   ---------------------------------------------------------------------- -/

/-- A benign environment: not preloading, 4 KiB pages, OS calls succeed. -/
def envT : MiEnv :=
  { preloading := false
    os_page_size := 4096
    sizeof_arena := 256
    has_virtual_reserve := true
    has_overcommit := true
    numa_node_count := 1
    os_commit_ok := true
    os_commit_zero := false
    os_purge_needs_recommit := false
    os_alloc_ok := true
    os_alloc_base := MI_ARENA_BLOCK_SIZE
    os_alloc_zero := true
    os_alloc_pinned := false }

/-- Options with purging disabled (`purge_delay = -1`). -/
def oNeg : MiOptions :=
  { purge_delay := -1
    arena_purge_mult := 1
    arena_reserve := 0
    arena_eager_commit := 0
    disallow_arena_alloc := false
    disallow_os_alloc := false
    purge_decommits := true }

/-- Options with a positive effective purge delay (10 ms). -/
def oPos : MiOptions := { oNeg with purge_delay := 10 }

/-- Memid of externally provided, fully committed memory. -/
def memExt : MiMemid :=
  { prov := MiMemProv.external
    initially_committed := true
    initially_zero := true
    is_pinned := false }

/-- The empty registry. -/
def gEmpty : MiGlobal := { arenas := [], arena_count := 0 }

/-- A fallback arena value for `Option.getD` projections. -/
def arenaDummy : MiArena := mi_arena_init envT 0 0 false 0 false memExt

/-- Register a fresh 16-block arena of committed external memory at
address `MI_ARENA_BLOCK_SIZE`; blocks `[1, 16)` become free. -/
def manageT : Option (Int × MiGlobal) :=
  mi_manage_os_memory_ex2 envT gEmpty MI_ARENA_BLOCK_SIZE
    (16 * MI_ARENA_BLOCK_SIZE) false (-1) false memExt

/-- The registry holding the fresh arena. -/
def gT : MiGlobal := (manageT.getD (0, gEmpty)).2

/-- The fresh arena itself. -/
def arenaT : MiArena := (miSlot gT 0).getD arenaDummy

/- ----------------------------------------------------------------------
   Claim C2.
   ---------------------------------------------------------------------- -/

/-- An arena that is neither pinned nor initially committed: 16 blocks,
blocks `[0, 6)` committed, blocks `[4, 6)` in use, the rest free. -/
def arenaC2 : MiArena :=
  { base := MI_ARENA_BLOCK_SIZE
    memid := { prov := MiMemProv.external }
    id := 1
    block_count := 16
    numa_node := -1
    exclusive := false
    is_large := false
    purge_expire := 0
    blocks_free := Finset.Ico 1 16 \ Finset.Ico 4 6
    blocks_committed := Finset.Ico 0 6
    blocks_purge := ∅
    blocks_dirty := Finset.Ico 0 6
    blocks_abandoned := List.replicate MI_ARENA_BIN_COUNT ∅ }

/-- Registry holding only `arenaC2`. -/
def gC2 : MiGlobal := { arenas := [some arenaC2], arena_count := 1 }

/-- Freeing blocks `[4, 6)` (2 blocks, partially committed:
`committed_size = 1` block < `size = 2` blocks). -/
def freeC2 : MiGlobal × List MiDiag :=
  _mi_arena_free envT oNeg gC2
    (MI_ARENA_BLOCK_SIZE + mi_size_of_blocks 4)
    (mi_size_of_blocks 2) (mi_size_of_blocks 1)
    (mi_memid_create_arena 1 false 4)

/- ----------------------------------------------------------------------
   Claims C3 and C4: a fresh arena hands out block index
   `mi_arena_info_blocks = 1`, which `_mi_arena_free` then rejects.
   ---------------------------------------------------------------------- -/

/-- Claim one block from the fresh arena (thread sequence 0, no commit
request): the lowest free run starts at block index 1. -/
def allocT1 : Option (Nat × MiMemid × MiArena) :=
  mi_arena_try_alloc_at envT arenaT 1 false 0

/-- Projections of the successful claim. -/
def allocT1p : Nat := (allocT1.getD (0, memExt, arenaDummy)).1

/-- The memid produced by the claim. -/
def allocT1memid : MiMemid := (allocT1.getD (0, memExt, arenaDummy)).2.1

/-- The arena after the claim. -/
def allocT1arena : MiArena := (allocT1.getD (0, memExt, arenaDummy)).2.2

/-- Registry after the claim. -/
def gT1 : MiGlobal := miSetSlot gT 0 allocT1arena

/-- Free the range just handed out (fully committed). -/
def freeT1 : MiGlobal × List MiDiag :=
  _mi_arena_free envT oNeg gT1 allocT1p MI_ARENA_BLOCK_SIZE MI_ARENA_BLOCK_SIZE
    allocT1memid

/-- Claim two blocks from the fresh arena: the run starts at block 1. -/
def allocT2 : Option (Nat × MiMemid × MiArena) :=
  mi_arena_try_alloc_at envT arenaT 2 false 0

/-- The memid produced by the two-block claim. -/
def allocT2memid : MiMemid := (allocT2.getD (0, memExt, arenaDummy)).2.1

/-- Registry after the two-block claim. -/
def gT2 : MiGlobal := miSetSlot gT 0 (allocT2.getD (0, memExt, arenaDummy)).2.2

/-- Free of the two-block range just handed out. -/
def freeT2 : MiGlobal × List MiDiag :=
  _mi_arena_free envT oNeg gT2 (allocT2.getD (0, memExt, arenaDummy)).1
    (mi_size_of_blocks 2) (mi_size_of_blocks 2) allocT2memid

/- ----------------------------------------------------------------------
   Claim C9: the huge-page interleave splits pages fairly.
   ---------------------------------------------------------------------- -/

/-- The per-node request size the split assigns to node `n`. -/
def npFun (pages_per pages_mod n : Nat) : Nat :=
  pages_per + (if n < pages_mod then 1 else 0)

/- ----------------------------------------------------------------------
   Claim C9 is settled above.  Claim C8: the reserve-size computation.
   ---------------------------------------------------------------------- -/

/-- Definition following the words of claim C8 (the refinement target,
to be compared with `mi_arena_reserve_size` from the source): the
`arena_reserve` option, divided by 4 when virtual reserve is
unsupported and rounded up to `BLOCK_SIZE`, multiplied by
`2^clamp(arena_count/8, 0, 16)` exactly when `arena_count ∈ [8, 128]`,
then clamped into `[min_reserve, max_reserve]`; failure whenever the
resulting size is smaller than the requesting size. -/
def c8_next_arena_size (env : MiEnv) (o : MiOptions) (arena_count req_size : Nat) :
    Option Nat :=
  let base := _mi_align_up
    (if env.has_virtual_reserve then o.arena_reserve else o.arena_reserve / 4)
    MI_ARENA_BLOCK_SIZE
  let scaled :=
    if 8 ≤ arena_count ∧ arena_count ≤ 128 then
      2 ^ _mi_clamp (arena_count / 8) 0 16 * base
    else base
  let min_reserve := mi_size_of_blocks (mi_arena_info_blocks env + 1)
  let max_reserve := MI_BITMAP_MAX_BITS * MI_ARENA_BLOCK_SIZE
  let clamped :=
    if scaled < min_reserve then min_reserve
    else if scaled > max_reserve then max_reserve
    else scaled
  if clamped < req_size then none else some clamped

/- ----------------------------------------------------------------------
   Theorems.
   ---------------------------------------------------------------------- -/

/- Basic bitmap lemmas. -/

theorem mem_rangeSet {i idx n : Nat} : i ∈ rangeSet idx n ↔ idx ≤ i ∧ i < idx + n := by
  simp [rangeSet]

theorem mi_bitmap_setN_of_subset {bm : Finset Nat} {idx n : Nat}
    (h : rangeSet idx n ⊆ bm) : mi_bitmap_setN bm idx n = bm := by
  simp [mi_bitmap_setN, Finset.union_eq_left.mpr h]

theorem mi_bitmap_clearN_subset (bm : Finset Nat) (idx n : Nat) :
    mi_bitmap_clearN bm idx n ⊆ bm := Finset.sdiff_subset

theorem mi_bitmap_allClearN_false {bm : Finset Nat} {idx n : Nat}
    (hn : 0 < n) (h : rangeSet idx n ⊆ bm) :
    mi_bitmap_allClearN bm idx n = false := by
  have hidx : idx ∈ rangeSet idx n := mem_rangeSet.mpr ⟨le_rfl, by omega⟩
  have : ¬ Disjoint (rangeSet idx n) bm := by
    intro hd
    exact (Finset.disjoint_left.mp hd hidx) (h hidx)
  simpa [mi_bitmap_allClearN] using this

theorem list_findSome_mem {α β : Type} {l : List α} {f : α → Option β} {b : β}
    (h : l.findSome? f = some b) : ∃ a ∈ l, f a = some b := by
  induction l with
  | nil => simp [List.findSome?] at h
  | cons x xs ih =>
    rw [List.findSome?] at h
    cases hx : f x with
    | some v =>
      rw [hx] at h
      exact ⟨x, by simp, by simp [hx, ← h]⟩
    | none =>
      rw [hx] at h
      obtain ⟨a, ha, hfa⟩ := ih h
      exact ⟨a, by simp [ha], hfa⟩

theorem mi_bitmap_chunk_find_allSet {bm : Finset Nat} {c n i : Nat}
    (h : mi_bitmap_chunk_find bm c n = some i) : mi_bitmap_allSetN bm i n = true := by
  unfold mi_bitmap_chunk_find at h
  cases hf : (List.range (MI_BITMAP_CHUNK_BITS + 1 - n)).find? fun j =>
      mi_bitmap_allSetN bm (c * MI_BITMAP_CHUNK_BITS + j) n with
  | none => rw [hf] at h; simp at h
  | some j =>
    rw [hf] at h
    have hp := List.find?_some hf
    simp at h
    rw [← h]
    exact hp

theorem mi_bitmap_try_find_and_clearN_spec {bm : Finset Nat} {tseq n bc i : Nat}
    {bm2 : Finset Nat}
    (h : mi_bitmap_try_find_and_clearN bm tseq n bc = some (i, bm2)) :
    rangeSet i n ⊆ bm ∧ bm2 = mi_bitmap_clearN bm i n := by
  unfold mi_bitmap_try_find_and_clearN at h
  by_cases hc : mi_bitmap_chunk_count bc = 0
  · simp [hc] at h
  · simp only [hc, if_false] at h
    cases hs : (List.range (mi_bitmap_chunk_count bc)).findSome? fun k =>
        mi_bitmap_chunk_find bm ((tseq % mi_bitmap_chunk_count bc + k) %
          mi_bitmap_chunk_count bc) n with
    | none => rw [hs] at h; simp at h
    | some j =>
      rw [hs] at h
      simp at h
      obtain ⟨a, _, hfa⟩ := list_findSome_mem hs
      have hall := mi_bitmap_chunk_find_allSet hfa
      obtain ⟨hj, hbm⟩ := h
      subst hj
      refine ⟨?_, hbm.symm⟩
      simpa [mi_bitmap_allSetN] using hall

/- ----------------------------------------------------------------------
   Claim C1.
   ---------------------------------------------------------------------- -/

/-- Claim C1, divergence at a failing input: with a positive effective
purge delay (`purge_delay * arena_purge_mult = 10 > 0`) and not
preloading, `mi_arena_schedule_purge` on a freed range neither updates
`purge_expire` (which stays 0 instead of becoming `now + delay`) nor
marks the range in `blocks_purge` (which stays empty): it returns the
arena unchanged and only emits the purging-not-implemented diagnostic.
With a negative effective delay it does nothing at all, as claimed. -/
theorem c1_schedule_purge_stub :
    mi_arena_schedule_purge envT oPos arenaT 2 1 = (arenaT, [MiDiag.purgeNotImplemented]) ∧
    arenaT.purge_expire = 0 ∧
    arenaT.blocks_purge = ∅ ∧
    mi_arena_schedule_purge envT oNeg arenaT 2 1 = (arenaT, []) := by
  refine ⟨by decide, by decide, by decide, by decide⟩

/-- Claim C2, divergence at a failing input: freeing the partially
committed 2-block range at block index 4 of a non-pinned, non-initially
committed arena should clear exactly the committed bits `[4, 6)`,
leaving `[0, 2)` and `[2, 4)` committed; the code instead clears
`[2, 2 + 4) = [2, 6)` (the `blocks, block_idx` arguments of the
`MI_BIT_CLEAR` call at arena.c line 429 are transposed), so the
committed bits 2 and 3 outside the freed range are lost and the result
is `[0, 2)` instead of `[0, 4)`. -/
theorem c2_partial_commit_clear_transposed :
    Option.map MiArena.blocks_committed (miSlot freeC2.1 0) = some (Finset.Ico 0 2) ∧
    (2 : Nat) ∈ arenaC2.blocks_committed ∧
    (3 : Nat) ∈ arenaC2.blocks_committed ∧
    (Finset.Ico 0 2 : Finset Nat) ≠ Finset.Ico 0 4 := by
  refine ⟨by decide, by decide, by decide, by decide⟩

/-- Claim C4, divergence at a failing input: the very first allocation
from a fresh arena is handed out at block index `info_blocks = 1`
(blocks `[1, 16)` are free, the claim clears bit 1), yet
`_mi_arena_free` of that same range fires the invalid-arena-block
diagnostic (the check at arena.c line 417 uses
`block_idx <= mi_arena_info_blocks()`) and returns without releasing:
bit 1 stays cleared in `blocks_free`. -/
theorem c4_first_block_rejected_on_free :
    allocT1memid.prov = MiMemProv.arena 1 (mi_arena_info_blocks envT) false ∧
    allocT1p = arenaT.base + mi_size_of_blocks (mi_arena_info_blocks envT) ∧
    freeT1 = (gT1, [MiDiag.invalidArenaBlock]) ∧
    Option.map MiArena.blocks_free (miSlot freeT1.1 0) = some (Finset.Ico 2 16) := by
  refine ⟨by decide, by decide, by decide, by decide⟩

/-- Claim C3, divergence at a failing input: a successful 2-block
allocation at block index 1 followed by `_mi_arena_free` of that same
range does not restore `blocks_free ∪ blocks_purge`: the free is
rejected by the invalid-arena-block check (arena.c line 417, because the
block index equals `info_blocks`), so the union ends as `[3, 16)` while
it was `[1, 16)` before the allocation. -/
theorem c3_roundtrip_not_neutral :
    allocT2memid.prov = MiMemProv.arena 1 1 false ∧
    arenaT.blocks_free ∪ arenaT.blocks_purge = Finset.Ico 1 16 ∧
    Option.map (fun a => a.blocks_free ∪ a.blocks_purge) (miSlot freeT2.1 0) =
      some (Finset.Ico 3 16) ∧
    (Finset.Ico 3 16 : Finset Nat) ≠ Finset.Ico 1 16 := by
  refine ⟨by decide, by decide, by decide, by decide⟩

/- ----------------------------------------------------------------------
   Helper lemmas about free and purge.
   ---------------------------------------------------------------------- -/

theorem mi_arena_purge_blocks_free (env : MiEnv) (a : MiArena) (bi bl : Nat) :
    (mi_arena_purge env a bi bl).blocks_free = a.blocks_free := by
  unfold mi_arena_purge
  dsimp only
  split <;> rfl

theorem mi_arena_schedule_purge_blocks_free (env : MiEnv) (o : MiOptions)
    (a : MiArena) (bi bl : Nat) :
    (mi_arena_schedule_purge env o a bi bl).1.blocks_free = a.blocks_free := by
  unfold mi_arena_schedule_purge
  dsimp only
  split
  · rfl
  · split
    · exact mi_arena_purge_blocks_free env a bi bl
    · rfl

theorem mi_arena_free_decommit_blocks_free (env : MiEnv) (o : MiOptions)
    (a : MiArena) (bi bl : Nat) (ac : Bool) :
    (mi_arena_free_decommit env o a bi bl ac).1.blocks_free = a.blocks_free := by
  unfold mi_arena_free_decommit
  split
  · rfl
  · rw [mi_arena_schedule_purge_blocks_free]
    split <;> rfl

theorem one_le_block_count {size : Nat} (hs : size ≠ 0) :
    0 < mi_block_count_of_size size := by
  unfold mi_block_count_of_size _mi_divide_up MI_ARENA_BLOCK_SIZE
  omega

theorem list_set_getD {α : Type} (d : α) :
    ∀ (l : List α) (i : Nat) (a : α), i < l.length → (l.set i a).getD i d = a := by
  intro l
  induction l with
  | nil => intro i a h; simp at h
  | cons x xs ih =>
    intro i a h
    cases i with
    | zero => simp [List.set, List.getD]
    | succ j =>
      simp only [List.set, List.getD_cons_succ]
      exact ih j a (by simpa using h)

theorem miSlot_miSetSlot_self (g : MiGlobal) (i : Nat) (a : MiArena) :
    miSlot (miSetSlot g i a) i = some a := by
  unfold miSlot miSetSlot
  apply list_set_getD
  simp only [List.length_append, List.length_replicate]
  omega

/- ----------------------------------------------------------------------
   Claim C5.
   ---------------------------------------------------------------------- -/

theorem mi_arena_free_blocks_double_free (env : MiEnv) (o : MiOptions)
    (arena : MiArena) (bidx blocks : Nat) (ac : Bool)
    (hlo : mi_arena_info_blocks env < bidx) (hhi : bidx ≤ arena.block_count)
    (hb : 0 < blocks) (hfree : rangeSet bidx blocks ⊆ arena.blocks_free) :
    (mi_arena_free_blocks env o arena bidx blocks ac).1.blocks_free = arena.blocks_free ∧
    MiDiag.alreadyFreed ∈ (mi_arena_free_blocks env o arena bidx blocks ac).2.1 ∧
    (mi_arena_free_blocks env o arena bidx blocks ac).2.2 = false := by
  have hcond : (decide (bidx ≤ mi_arena_info_blocks env) || decide (bidx > arena.block_count)) = false := by
    simp only [Bool.or_eq_false_iff, decide_eq_false_iff_not]
    exact ⟨by omega, by omega⟩
  have hfree1 := mi_arena_free_decommit_blocks_free env o arena bidx blocks ac
  have hclear : mi_bitmap_allClearN arena.blocks_free bidx blocks = false :=
    mi_bitmap_allClearN_false hb hfree
  unfold mi_arena_free_blocks mi_arena_free_release
  simp only [hcond, Bool.false_eq_true, if_false, hfree1, hclear,
    mi_bitmap_setN_of_subset hfree]
  refine ⟨trivial, ?_, trivial⟩
  simp

/-- Claim C5: if `_mi_arena_free` is called on an arena range whose
`blocks_free` bits are already all set (a double free), it emits the
already-freed diagnostic and returns, and `blocks_free` is left
unchanged (setting already-set bits does not alter the bitmap). -/
theorem c5_double_free (env : MiEnv) (o : MiOptions) (g : MiGlobal)
    (p size committed_size : Nat) (aid : Int) (bidx : Nat) (excl : Bool)
    (m : MiMemid) (arena : MiArena)
    (hm : m.prov = MiMemProv.arena aid bidx excl)
    (hp : p ≠ 0) (hs : size ≠ 0)
    (hslot : miSlot g (mi_arena_id_index aid) = some arena)
    (hlo : mi_arena_info_blocks env < bidx)
    (hhi : bidx ≤ arena.block_count)
    (hfree : rangeSet bidx (mi_block_count_of_size size) ⊆ arena.blocks_free) :
    MiDiag.alreadyFreed ∈ (_mi_arena_free env o g p size committed_size m).2 ∧
    Option.map MiArena.blocks_free
        (miSlot (_mi_arena_free env o g p size committed_size m).1
          (mi_arena_id_index aid)) = some arena.blocks_free := by
  obtain ⟨h1, h2, h3⟩ := mi_arena_free_blocks_double_free env o arena bidx
    (mi_block_count_of_size size) (committed_size == size) hlo hhi
    (one_le_block_count hs) hfree
  unfold _mi_arena_free
  rw [hm]
  simp only [hp, hs, if_false, hslot, if_neg]
  simp only [h3, Bool.false_eq_true, if_false]
  constructor
  · exact h2
  · rw [miSlot_miSetSlot_self]
    simp [h1]

/-- Witness for C5: a concrete double free.  Blocks `[4, 6)` of
`arenaC2` are in use; after a first free they are all set in
`blocks_free`, and a second free of the same range emits the
already-freed diagnostic and leaves `blocks_free` unchanged. -/
theorem c5_double_free_witness :
    MiDiag.alreadyFreed ∈ (_mi_arena_free envT oNeg (miSetSlot gC2 0 { arenaC2 with
      blocks_free := Finset.Ico 1 16 })
      (MI_ARENA_BLOCK_SIZE + mi_size_of_blocks 4)
      (mi_size_of_blocks 2) (mi_size_of_blocks 2)
      (mi_memid_create_arena 1 false 4)).2 ∧
    Option.map MiArena.blocks_free
      ((_mi_arena_free envT oNeg (miSetSlot gC2 0 { arenaC2 with
        blocks_free := Finset.Ico 1 16 })
        (MI_ARENA_BLOCK_SIZE + mi_size_of_blocks 4)
        (mi_size_of_blocks 2) (mi_size_of_blocks 2)
        (mi_memid_create_arena 1 false 4)).1.arenas.getD 0 none) =
      some (Finset.Ico 1 16) := by
  have h := c5_double_free envT oNeg (miSetSlot gC2 0 { arenaC2 with
      blocks_free := Finset.Ico 1 16 })
    (MI_ARENA_BLOCK_SIZE + mi_size_of_blocks 4)
    (mi_size_of_blocks 2) (mi_size_of_blocks 2) 1 4 false
    (mi_memid_create_arena 1 false 4)
    ({ arenaC2 with blocks_free := Finset.Ico 1 16 })
    (by decide) (by decide) (by decide) (by decide) (by decide) (by decide)
    (by decide)
  exact h

/- ----------------------------------------------------------------------
   Claim C6: the descriptor prefix is never free.
   ---------------------------------------------------------------------- -/

theorem mi_arena_try_alloc_at_free_subset (env : MiEnv) (a : MiArena)
    (n : Nat) (c : Bool) (t : Nat) {p : Nat} {m : MiMemid} {a2 : MiArena}
    (h : mi_arena_try_alloc_at env a n c t = some (p, m, a2)) :
    a2.blocks_free ⊆ a.blocks_free := by
  unfold mi_arena_try_alloc_at at h
  cases hf : mi_bitmap_try_find_and_clearN a.blocks_free t n a.block_count with
  | none => rw [hf] at h; simp at h
  | some r =>
    obtain ⟨bi, f1⟩ := r
    obtain ⟨hsub, hfeq⟩ := mi_bitmap_try_find_and_clearN_spec hf
    rw [hf] at h
    dsimp only at h
    split at h <;>
    · simp only [Option.some.injEq, Prod.mk.injEq] at h
      obtain ⟨-, -, ha2⟩ := h
      subst ha2
      simp only [apply_ite Prod.snd, apply_ite MiArena.blocks_free, ite_self]
      rw [hfeq]
      exact mi_bitmap_clearN_subset a.blocks_free bi n

theorem rangeSet_prefix_disjoint {info bi bl : Nat} (hbi : info ≤ bi) :
    Disjoint (rangeSet 0 info) (rangeSet bi bl) := by
  rw [Finset.disjoint_left]
  intro i hi hj
  rw [mem_rangeSet] at hi hj
  omega

theorem mi_arena_free_blocks_prefix_clear (env : MiEnv) (o : MiOptions) (a : MiArena)
    (bi bl : Nat) (ac : Bool)
    (hinv : Disjoint (rangeSet 0 (mi_arena_info_blocks env)) a.blocks_free) :
    Disjoint (rangeSet 0 (mi_arena_info_blocks env))
      (mi_arena_free_blocks env o a bi bl ac).1.blocks_free := by
  unfold mi_arena_free_blocks
  split
  · exact hinv
  · rename_i hcond
    have hbi : mi_arena_info_blocks env < bi := by
      simp only [Bool.or_eq_true, decide_eq_true_eq, not_or] at hcond
      omega
    have hd := mi_arena_free_decommit_blocks_free env o a bi bl ac
    unfold mi_arena_free_release
    split <;>
    · simp only [hd, mi_bitmap_setN, Finset.disjoint_union_right]
      exact ⟨hinv, rangeSet_prefix_disjoint (Nat.le_of_lt hbi)⟩

theorem arenaStep_prefix_clear (env : MiEnv) (o : MiOptions) (a : MiArena) (op : ArenaOp)
    (hinv : Disjoint (rangeSet 0 (mi_arena_info_blocks env)) a.blocks_free) :
    Disjoint (rangeSet 0 (mi_arena_info_blocks env)) (arenaStep env o a op).blocks_free := by
  cases op with
  | alloc bcount commit tseq =>
    simp only [arenaStep]
    cases hr : mi_arena_try_alloc_at env a bcount commit tseq with
    | none => simp only [hr]; exact hinv
    | some r =>
      obtain ⟨p, m, a2⟩ := r
      simp only [hr]
      exact Finset.disjoint_of_subset_right
        (mi_arena_try_alloc_at_free_subset env a bcount commit tseq hr) hinv
  | free block_idx blocks all_committed =>
    exact mi_arena_free_blocks_prefix_clear env o a block_idx blocks all_committed hinv
  | purge block_idx blocks =>
    simp only [arenaStep]
    rw [mi_arena_purge_blocks_free]
    exact hinv

theorem arenaRun_prefix_clear (env : MiEnv) (o : MiOptions) :
    ∀ (ops : List ArenaOp) (a : MiArena),
      Disjoint (rangeSet 0 (mi_arena_info_blocks env)) a.blocks_free →
      Disjoint (rangeSet 0 (mi_arena_info_blocks env)) (arenaRun env o a ops).blocks_free := by
  intro ops
  induction ops with
  | nil => intro a h; exact h
  | cons op rest ih =>
    intro a h
    exact ih (arenaStep env o a op) (arenaStep_prefix_clear env o a op h)

/-- Claim C6: for an arena as initialized by `mi_manage_os_memory_ex2`,
after every sequence of allocate, free and purge operations no bit of
the descriptor prefix `[0, info_blocks)` is set in `blocks_free`: the
prefix is left not free at initialization, allocation only clears free
bits, and free sets bits only at indices its validity check placed above
the prefix. -/
theorem c6_prefix_never_free (env : MiEnv) (o : MiOptions)
    (start bcount : Nat) (is_large : Bool) (numa_node : Int) (exclusive : Bool)
    (memid : MiMemid) (ops : List ArenaOp) :
    Disjoint (rangeSet 0 (mi_arena_info_blocks env))
      (arenaRun env o (mi_arena_init env start bcount is_large numa_node exclusive memid)
        ops).blocks_free := by
  apply arenaRun_prefix_clear
  unfold mi_arena_init
  simp only [mi_bitmap_setN, Finset.empty_union]
  exact rangeSet_prefix_disjoint le_rfl

/- ----------------------------------------------------------------------
   Claim C7: the admission filter of `_mi_arena_alloc_aligned`.
   ---------------------------------------------------------------------- -/

/-- Counterexample to claim C7 as stated: a request of size
`MAX_OBJ_SIZE + 1` (outside the admission bounds) naming a specific
arena (`req_arena_id = 1`) does not delegate to the OS layer: it
returns NULL with `errno = ENOMEM` (OS fallback is skipped whenever a
specific arena is requested, arena.c line 356). -/
theorem c7_oversize_not_delegated :
    _mi_arena_alloc_aligned envT oNeg gT (MI_ARENA_MAX_OBJ_SIZE + 1)
      MI_ARENA_BLOCK_ALIGN 0 false true 1 0 0 = (MiAllocResult.enomem, gT) ∧
    (MiAllocResult.enomem ≠ MiAllocResult.osAlloc false ∧
     MiAllocResult.enomem ≠ MiAllocResult.osAlloc true) := by
  refine ⟨by decide, by decide, by decide⟩

/-- Claim C7 as amended: `_mi_arena_alloc_aligned` attempts arena
placement only under the admission bounds; for any request outside
them the registry (and so every arena bitmap) is unchanged, and the
request is delegated directly to the OS layer when OS allocation is not
disallowed and no specific arena is requested, and otherwise returns
NULL with `errno = ENOMEM`. -/
theorem c7_admission_filter (env : MiEnv) (o : MiOptions) (g : MiGlobal)
    (size alignment align_offset : Nat) (commit allow_large : Bool)
    (req_arena_id : Int) (tseq : Nat) (numa_node : Int)
    (h : ¬ (MI_ARENA_MIN_OBJ_SIZE ≤ size ∧ size ≤ MI_ARENA_MAX_OBJ_SIZE ∧
            alignment ≤ MI_ARENA_BLOCK_ALIGN ∧ align_offset = 0)) :
    _mi_arena_alloc_aligned env o g size alignment align_offset commit allow_large
      req_arena_id tseq numa_node =
    (if o.disallow_os_alloc || req_arena_id != 0 then MiAllocResult.enomem
     else MiAllocResult.osAlloc (align_offset > 0), g) := by
  unfold _mi_arena_alloc_aligned
  cases hb : (decide (MI_ARENA_MIN_OBJ_SIZE ≤ size) &&
      decide (size ≤ MI_ARENA_MAX_OBJ_SIZE) &&
      decide (alignment ≤ MI_ARENA_BLOCK_ALIGN) && (align_offset == 0)) with
  | false =>
    simp only [hb, Bool.and_false, Bool.false_eq_true, if_false, mi_alloc_os_fallback]
    split <;> rfl
  | true =>
    exfalso
    apply h
    simp only [Bool.and_eq_true, decide_eq_true_eq, beq_iff_eq] at hb
    exact ⟨hb.1.1.1, hb.1.1.2, hb.1.2, hb.2⟩

/-- Witness for C7: the amended theorem applied to the oversize request
`MAX_OBJ_SIZE + 1` with a specific arena requested. -/
theorem c7_admission_filter_witness :
    ¬ (MI_ARENA_MIN_OBJ_SIZE ≤ MI_ARENA_MAX_OBJ_SIZE + 1 ∧
       MI_ARENA_MAX_OBJ_SIZE + 1 ≤ MI_ARENA_MAX_OBJ_SIZE ∧
       MI_ARENA_BLOCK_ALIGN ≤ MI_ARENA_BLOCK_ALIGN ∧ (0 : Nat) = 0) ∧
    _mi_arena_alloc_aligned envT oNeg gT (MI_ARENA_MAX_OBJ_SIZE + 1)
      MI_ARENA_BLOCK_ALIGN 0 false true 1 0 0 =
    (if oNeg.disallow_os_alloc || (1 : Int) != 0 then MiAllocResult.enomem
     else MiAllocResult.osAlloc ((0 : Nat) > 0), gT) :=
  ⟨by decide,
   c7_admission_filter envT oNeg gT (MI_ARENA_MAX_OBJ_SIZE + 1)
     MI_ARENA_BLOCK_ALIGN 0 false true 1 0 0 (by decide)⟩

/- ----------------------------------------------------------------------
   Claim C10: failed claim in a specifically requested arena.
   ---------------------------------------------------------------------- -/

/-- Claim C10: if a specific arena is requested (`req_arena_id ≠ 0`) and
the claim in that arena fails, `_mi_arena_alloc_aligned` neither
reserves a new arena nor falls back to the OS allocator: the registry is
returned unchanged and the result is NULL with `errno = ENOMEM`. -/
theorem c10_specific_arena_no_fallback (env : MiEnv) (o : MiOptions) (g : MiGlobal)
    (size alignment align_offset : Nat) (commit allow_large : Bool)
    (req_arena_id : Int) (tseq : Nat) (numa_node : Int)
    (hreq : req_arena_id ≠ 0)
    (hfail : mi_arena_try_alloc env g numa_node size alignment commit allow_large
        req_arena_id tseq = none) :
    _mi_arena_alloc_aligned env o g size alignment align_offset commit allow_large
      req_arena_id tseq numa_node = (MiAllocResult.enomem, g) := by
  have hreqb : (req_arena_id != 0) = true := by
    simp [bne_iff_ne, hreq]
  have hreqb0 : (req_arena_id == 0) = false := by
    simp [hreq]
  unfold _mi_arena_alloc_aligned
  split
  · rw [hfail, hreqb0]
    simp only [Bool.false_eq_true, if_false, mi_alloc_os_fallback, hreqb, Bool.or_true,
      if_true]
  · simp only [mi_alloc_os_fallback, hreqb, Bool.or_true, if_true]

/-- Witness for C10: requesting arena 7 from a registry that has no
arena 7 (a single-arena registry) fails and yields `ENOMEM` with the
registry unchanged. -/
theorem c10_specific_arena_no_fallback_witness :
    (7 : Int) ≠ 0 ∧
    mi_arena_try_alloc envT gT 0 MI_ARENA_BLOCK_SIZE
      MI_ARENA_BLOCK_SIZE false true 7 0 = none ∧
    _mi_arena_alloc_aligned envT oNeg gT MI_ARENA_BLOCK_SIZE MI_ARENA_BLOCK_SIZE 0
      false true 7 0 0 = (MiAllocResult.enomem, gT) := by
  refine ⟨by decide, by decide, ?_⟩
  exact c10_specific_arena_no_fallback envT oNeg gT MI_ARENA_BLOCK_SIZE
    MI_ARENA_BLOCK_SIZE 0 false true 7 0 0 (by decide) (by decide)

theorem pagesRequestedTotal_cons (x : Nat × Nat × Nat) (l : List (Nat × Nat × Nat)) :
    pagesRequestedTotal (x :: l) = x.2.1 + pagesRequestedTotal l := rfl

theorem pagesRequestedFrom_cons (x : Nat × Nat × Nat) (l : List (Nat × Nat × Nat)) (n : Nat) :
    pagesRequestedFrom (x :: l) n =
      (if x.1 = n then x.2.1 else 0) + pagesRequestedFrom l n := by
  unfold pagesRequestedFrom
  rw [List.filter_cons]
  by_cases hx : x.1 = n
  · simp [hx]
  · simp [hx]

theorem mi_huge_interleave_loop_spec (per pm t N : Nat) :
    ∀ (fuel k : Nat), k + fuel = N →
      pagesRequestedTotal (mi_huge_interleave_loop per pm t fuel k
          (∑ j ∈ Finset.Ico k N, npFun per pm j)) =
        (∑ j ∈ Finset.Ico k N, npFun per pm j) ∧
      (∀ n, n < N → k ≤ n →
        pagesRequestedFrom (mi_huge_interleave_loop per pm t fuel k
          (∑ j ∈ Finset.Ico k N, npFun per pm j)) n = npFun per pm n) ∧
      (∀ n, n < k →
        pagesRequestedFrom (mi_huge_interleave_loop per pm t fuel k
          (∑ j ∈ Finset.Ico k N, npFun per pm j)) n = 0) := by
  intro fuel
  induction fuel with
  | zero =>
    intro k hk
    have hempty : Finset.Ico k N = ∅ := by
      rw [Finset.Ico_eq_empty_iff]
      omega
    refine ⟨by simp [hempty, mi_huge_interleave_loop, pagesRequestedTotal], ?_, ?_⟩
    · intro n hn hkn
      omega
    · intro n _
      simp [hempty, mi_huge_interleave_loop, pagesRequestedFrom]
  | succ fuel ih =>
    intro k hk
    have hkN : k < N := by omega
    have hsplit : (∑ j ∈ Finset.Ico k N, npFun per pm j) =
        npFun per pm k + ∑ j ∈ Finset.Ico (k + 1) N, npFun per pm j :=
      Finset.sum_eq_sum_Ico_succ_bot hkN _
    by_cases hS : (∑ j ∈ Finset.Ico k N, npFun per pm j) = 0
    · have hz : ∀ j ∈ Finset.Ico k N, npFun per pm j = 0 := by
        intro j hj
        exact (Finset.sum_eq_zero_iff.mp hS) j hj
      refine ⟨?_, ?_, ?_⟩
      · simp [hS, mi_huge_interleave_loop, pagesRequestedTotal]
      · intro n hn hkn
        have hzn : npFun per pm n = 0 := hz n (by
          rw [Finset.mem_Ico]; omega)
        simp [hS, mi_huge_interleave_loop, pagesRequestedFrom, hzn]
      · intro n _
        simp [hS, mi_huge_interleave_loop, pagesRequestedFrom]
    · obtain ⟨hT, hF, hZ⟩ := ih (k + 1) (by omega)
      have hrem : (∑ j ∈ Finset.Ico k N, npFun per pm j) - npFun per pm k =
          ∑ j ∈ Finset.Ico (k + 1) N, npFun per pm j := by
        omega
      have hloop : mi_huge_interleave_loop per pm t (fuel + 1) k
          (∑ j ∈ Finset.Ico k N, npFun per pm j) =
          (k, npFun per pm k, t) ::
            mi_huge_interleave_loop per pm t fuel (k + 1)
              (∑ j ∈ Finset.Ico (k + 1) N, npFun per pm j) := by
        rw [mi_huge_interleave_loop, if_pos (by omega)]
        rw [show per + (if k < pm then 1 else 0) = npFun per pm k from rfl, hrem]
      refine ⟨?_, ?_, ?_⟩
      · rw [hloop, pagesRequestedTotal_cons, hT]
        exact hsplit.symm
      · intro n hn hkn
        rw [hloop, pagesRequestedFrom_cons]
        rcases Nat.eq_or_lt_of_le hkn with hkn' | hkn'
        · rw [if_pos hkn', hZ n (by omega)]
          simp [hkn']
        · rw [if_neg (by omega), hF n hn (by omega), Nat.zero_add]
      · intro n hn
        rw [hloop, pagesRequestedFrom_cons, if_neg (by omega), hZ n (by omega),
          Nat.zero_add]

theorem sum_ite_lt_one (pm : Nat) :
    ∀ M, (∑ j ∈ Finset.range M, if j < pm then (1 : Nat) else 0) = min M pm := by
  intro M
  induction M with
  | zero => simp
  | succ M ih =>
    rw [Finset.sum_range_succ, ih]
    split <;> omega

theorem sum_npFun {pm N : Nat} (per : Nat) (hpm : pm ≤ N) :
    (∑ j ∈ Finset.Ico 0 N, npFun per pm j) = N * per + pm := by
  unfold npFun
  rw [← Finset.range_eq_Ico, Finset.sum_add_distrib, Finset.sum_const,
    Finset.card_range, smul_eq_mul, sum_ite_lt_one]
  omega

theorem mi_numa_count_pos (env : MiEnv) (numa_nodes : Nat) :
    0 < mi_numa_count env numa_nodes := by
  unfold mi_numa_count
  dsimp only
  by_cases h : (if numa_nodes > 0 then numa_nodes else env.numa_node_count) = 0
  · rw [if_pos h]
    omega
  · rw [if_neg h]
    exact Nat.pos_of_ne_zero h

/-- Claim C9: `mi_reserve_huge_os_pages_interleave` with `pages = 0`
returns success without issuing any reservation; with `pages > 0` over
`N` numa nodes it requests exactly `pages / N` huge pages from each
node, the first `pages mod N` nodes requesting one extra, and the
per-node requests sum to `pages`. -/
theorem c9_huge_interleave (env : MiEnv) (pages numa_nodes timeout_msecs : Nat)
    (hp : 0 < pages) :
    mi_reserve_huge_os_pages_interleave env 0 numa_nodes timeout_msecs = (0, []) ∧
    (mi_reserve_huge_os_pages_interleave env pages numa_nodes timeout_msecs).1 = 0 ∧
    pagesRequestedTotal
      (mi_reserve_huge_os_pages_interleave env pages numa_nodes timeout_msecs).2 = pages ∧
    ∀ n, n < mi_numa_count env numa_nodes →
      pagesRequestedFrom
        (mi_reserve_huge_os_pages_interleave env pages numa_nodes timeout_msecs).2 n =
        pages / mi_numa_count env numa_nodes +
          (if n < pages % mi_numa_count env numa_nodes then 1 else 0) := by
  have hN := mi_numa_count_pos env numa_nodes
  set N := mi_numa_count env numa_nodes with hNdef
  have hpm : pages % N < N := Nat.mod_lt _ hN
  have hpages : pages = ∑ j ∈ Finset.Ico 0 N, npFun (pages / N) (pages % N) j := by
    rw [sum_npFun _ (Nat.le_of_lt hpm)]
    exact (Nat.div_add_mod pages N).symm
  obtain ⟨hT, hF, -⟩ := mi_huge_interleave_loop_spec (pages / N) (pages % N)
    (if timeout_msecs = 0 then 0 else timeout_msecs / N + 50) N N 0 (by omega)
  rw [← hpages] at hT hF
  have hrun : mi_reserve_huge_os_pages_interleave env pages numa_nodes timeout_msecs =
      (0, mi_huge_interleave_loop (pages / N) (pages % N)
        (if timeout_msecs = 0 then 0 else timeout_msecs / N + 50) N 0 pages) := by
    unfold mi_reserve_huge_os_pages_interleave
    rw [if_neg (by omega)]
  refine ⟨rfl, ?_, ?_, ?_⟩
  · rw [hrun]
  · rw [hrun]
    exact hT
  · intro n hn
    rw [hrun]
    exact hF n hn (Nat.zero_le n)

/-- Witness for C9: splitting 5 pages over 2 numa nodes requests 3 from
node 0 and 2 from node 1, which sum to 5. -/
theorem c9_huge_interleave_witness :
    0 < (5 : Nat) ∧
    (mi_reserve_huge_os_pages_interleave envT 0 2 100 = (0, []) ∧
     (mi_reserve_huge_os_pages_interleave envT 5 2 100).1 = 0 ∧
     pagesRequestedTotal (mi_reserve_huge_os_pages_interleave envT 5 2 100).2 = 5 ∧
     ∀ n, n < mi_numa_count envT 2 →
       pagesRequestedFrom (mi_reserve_huge_os_pages_interleave envT 5 2 100).2 n =
         5 / mi_numa_count envT 2 + (if n < 5 % mi_numa_count envT 2 then 1 else 0)) :=
  ⟨by decide, c9_huge_interleave envT 5 2 100 (by decide)⟩

theorem clamp_chain_eq_of_big (mn mx a b : Nat) (hmn : mn ≤ mx)
    (ha : mx < a) (hb : mx < b) :
    (if a < mn then mn else if a > mx then mx else a) =
      (if b < mn then mn else if b > mx then mx else b) := by
  rw [if_neg (by omega), if_pos (by omega), if_neg (by omega), if_pos (by omega)]

theorem clamp_le_sixteen (x : Nat) : _mi_clamp x 0 16 ≤ 16 := by
  unfold _mi_clamp
  split
  · omega
  · split <;> omega

/-- Claim C8: under the guards of `mi_arena_reserve` (not preloading, no
specific arena requested, fewer than `MAX_ARENAS - 4` arenas, a nonzero
`arena_reserve` option) and with the descriptor minimum not above the
bitmap maximum, the source size computation — whose multiplication is
skipped on 64-bit overflow — agrees with the computation the claim
describes, including failure exactly when the result is below the
requesting size. -/
theorem c8_reserve_size_eq (env : MiEnv) (o : MiOptions) (arena_count req_size : Nat)
    (h1 : env.preloading = false)
    (h3 : arena_count ≤ MI_MAX_ARENAS - 4)
    (h4 : o.arena_reserve ≠ 0)
    (h5 : mi_size_of_blocks (mi_arena_info_blocks env + 1) ≤
      MI_BITMAP_MAX_BITS * MI_ARENA_BLOCK_SIZE) :
    mi_arena_reserve_size env o arena_count req_size 0 =
      c8_next_arena_size env o arena_count req_size := by
  unfold mi_arena_reserve_size c8_next_arena_size
  rw [if_neg (by simp [h1]), if_neg (by simp), if_neg (by omega), if_neg h4]
  dsimp only
  set r2 := _mi_align_up (if env.has_virtual_reserve then o.arena_reserve
    else o.arena_reserve / 4) MI_ARENA_BLOCK_SIZE with hr2
  by_cases hc : 8 ≤ arena_count ∧ arena_count ≤ 128
  · rw [if_pos hc, if_pos hc]
    by_cases hov : 2 ^ _mi_clamp (arena_count / 8) 0 16 * r2 < USIZE
    · rw [if_pos hov]
    · rw [if_neg hov]
      have hm : 2 ^ _mi_clamp (arena_count / 8) 0 16 ≤ 2 ^ 16 :=
        Nat.pow_le_pow_right (by omega) (clamp_le_sixteen _)
      have hbig : 2 ^ 48 ≤ r2 := by
        have hge : USIZE ≤ 2 ^ _mi_clamp (arena_count / 8) 0 16 * r2 :=
          Nat.le_of_not_lt hov
        have hstep : USIZE ≤ 2 ^ 16 * r2 :=
          le_trans hge (Nat.mul_le_mul_right _ hm)
        have h64 : (2 : Nat) ^ 16 * 2 ^ 48 ≤ 2 ^ 16 * r2 := by
          calc (2 : Nat) ^ 16 * 2 ^ 48 = USIZE := by norm_num [USIZE]
          _ ≤ 2 ^ 16 * r2 := hstep
        exact Nat.le_of_mul_le_mul_left h64 (by norm_num)
      have hmax : MI_BITMAP_MAX_BITS * MI_ARENA_BLOCK_SIZE < 2 ^ 48 := by
        norm_num [MI_BITMAP_MAX_BITS, MI_ARENA_BLOCK_SIZE, MI_BFIELD_BITS,
          MI_BITMAP_CHUNK_BITS, MI_BITMAP_CHUNK_FIELDS]
      have hmul : r2 ≤ 2 ^ _mi_clamp (arena_count / 8) 0 16 * r2 :=
        Nat.le_mul_of_pos_left _ (Nat.pos_pow_of_pos _ (by omega))
      rw [clamp_chain_eq_of_big (mi_size_of_blocks (mi_arena_info_blocks env + 1))
        (MI_BITMAP_MAX_BITS * MI_ARENA_BLOCK_SIZE) r2
        (2 ^ _mi_clamp (arena_count / 8) 0 16 * r2) h5 (by omega) (by omega)]
  · rw [if_neg hc, if_neg hc]

/-- Witness for C8: 16 registered arenas double the 64 MiB base reserve
twice, and the source computation matches the claimed one. -/
theorem c8_reserve_size_eq_witness :
    envT.preloading = false ∧
    (16 : Nat) ≤ MI_MAX_ARENAS - 4 ∧
    ({ oNeg with arena_reserve := 64 * 1024 * 1024 } : MiOptions).arena_reserve ≠ 0 ∧
    mi_size_of_blocks (mi_arena_info_blocks envT + 1) ≤
      MI_BITMAP_MAX_BITS * MI_ARENA_BLOCK_SIZE ∧
    mi_arena_reserve_size envT { oNeg with arena_reserve := 64 * 1024 * 1024 }
      16 MI_ARENA_BLOCK_SIZE 0 =
      c8_next_arena_size envT { oNeg with arena_reserve := 64 * 1024 * 1024 }
        16 MI_ARENA_BLOCK_SIZE :=
  ⟨by decide, by decide, by decide, by decide,
   c8_reserve_size_eq envT { oNeg with arena_reserve := 64 * 1024 * 1024 }
     16 MI_ARENA_BLOCK_SIZE (by decide) (by decide) (by decide) (by decide)⟩

end Mimalloc
